import Mathlib

/-!
Verification of the note/folder storage module of the Note-app repository
(`src/hooks/use-note-storage.tsx`), shallowly embedded in Lean.

Modelling conventions:
* JS strings are Lean `String`s; the JS string operations used by the module
  (`toLowerCase`, `includes`, `trim`, `split(/\s+/)`) are embedded as
  executable functions on the character list (ASCII-faithful).
* JS `Date` values are `Nat` clock readings; `Date.now().toString()` is
  `Nat.repr now`.  Each operation that reads the clock takes `now : Nat` as an
  explicit argument.
* A runtime note object is `JsNote`: every property of the TS `Note`
  interface may be `undefined` at runtime (the update path of `saveNote`
  spreads a Partial input and casts it `as Note`, so properties the caller
  omits are genuinely absent), hence every field is an `Option`.
* React state plus the two `useEffect` persistence hooks are modelled by
  `StorageState` (in-memory collections, their localStorage mirrors, and the
  `isLoading` flag) and the functions `persistNotes` / `persistFolders`,
  applied after every mutation exactly when the corresponding effect fires.
  The mirror stores the deserialized value itself (serialization is abstracted
  as the identity on the collection).
-/

/-- Splitting a character list at every character satisfying `p`, keeping the
(possibly empty) pieces between delimiters; filtering out the empty pieces
afterwards gives exactly the tokens of the JS idiom
`s.split(/\s+/).filter(w => w.length > 0)`. -/
def splitChars (p : Char → Bool) : List Char → List (List Char)
  | [] => [[]]
  | c :: cs =>
    match splitChars p cs with
    | [] => [[]]
    | t :: ts => if p c then [] :: t :: ts else (c :: t) :: ts

/-- The word count computed by `saveNote`:
`content.split(/\s+/).filter(word => word.length > 0).length`. -/
def countWords (s : String) : Nat :=
  ((splitChars Char.isWhitespace s.data).filter (fun w => w ≠ [])).length

/-- JS `s.toLowerCase()` (ASCII-faithful). -/
def jsToLower (s : String) : String := ⟨s.data.map Char.toLower⟩

/-- `isStartOf sub l` : `sub` is a prefix of `l` (auxiliary for `includes`). -/
def isStartOf : List Char → List Char → Bool
  | [], _ => true
  | _ :: _, [] => false
  | a :: as, b :: bs => a == b && isStartOf as bs

/-- `strContainsAux sub l` : `sub` occurs contiguously somewhere in `l`. -/
def strContainsAux (sub : List Char) : List Char → Bool
  | [] => isStartOf sub []
  | c :: cs => isStartOf sub (c :: cs) || strContainsAux sub cs

/-- JS `s.includes(sub)` : substring containment. -/
def jsIncludes (s sub : String) : Bool := strContainsAux sub.data s.data

/-- JS `s.trim()` : strip leading and trailing whitespace. -/
def jsTrim (s : String) : String :=
  ⟨((s.data.dropWhile Char.isWhitespace).reverse.dropWhile Char.isWhitespace).reverse⟩

/-- JS falsy-or on an optional string: `x || d` is `d` when `x` is
`undefined` or the empty string. -/
def jsOrStr : Option String → String → String
  | none, d => d
  | some s, d => if s = "" then d else s

/-- A note object as it exists at runtime.  Every property of the TS `Note`
interface may be `undefined` (see the module header), hence `Option` fields.
Dates are `Nat` clock readings. -/
structure JsNote where
  id : Option String
  title : Option String
  content : Option String
  tags : Option (List String)
  folder : Option String
  createdAt : Option Nat
  updatedAt : Option Nat
  wordCount : Option Nat
  summary : Option String
  actionItems : Option (List String)
deriving DecidableEq

/-- The TS `Folder` interface; `createdAt` is a `Nat` clock reading. -/
structure Folder where
  id : String
  name : String
  color : String
  icon : String
  createdAt : Nat
deriving DecidableEq

/-- `DEFAULT_FOLDERS` from the source (creation time of the seeded folders is
abstracted to clock reading 0; only the ids matter to the module logic). -/
def DEFAULT_FOLDERS : List Folder :=
  [ { id := "all", name := "All Notes", color := "blue", icon := "FileText", createdAt := 0 },
    { id := "quick-notes", name := "Quick Notes", color := "green", icon := "Zap", createdAt := 0 },
    { id := "meetings", name := "Meetings", color := "purple", icon := "Users", createdAt := 0 },
    { id := "ideas", name := "Ideas", color := "yellow", icon := "Lightbulb", createdAt := 0 },
    { id := "tasks", name := "Tasks", color := "red", icon := "CheckSquare", createdAt := 0 } ]

/-- The state owned by `useNoteStorage`: the two in-memory collections, their
localStorage mirrors (`none` = key absent), and the `isLoading` flag. -/
structure StorageState where
  notes : List JsNote
  folders : List Folder
  storedNotes : Option (List JsNote)
  storedFolders : Option (List Folder)
  isLoading : Bool
deriving DecidableEq

/-- The notes persistence effect:
`useEffect(() => { if (!isLoading && notes.length > 0) localStorage.setItem(..., JSON.stringify(notes)) }, [notes, isLoading])`. -/
def persistNotes (st : StorageState) : StorageState :=
  if st.isLoading = false ∧ 0 < st.notes.length then
    { st with storedNotes := some st.notes }
  else st

/-- The folders persistence effect:
`useEffect(() => { if (!isLoading) localStorage.setItem(..., JSON.stringify(folders)) }, [folders, isLoading])`. -/
def persistFolders (st : StorageState) : StorageState :=
  if st.isLoading = false then { st with storedFolders := some st.folders }
  else st

/-- The object literal built by the create branch of `saveNote`. -/
def mkNewNote (nd : JsNote) (now : Nat) : JsNote :=
  { id := some (Nat.repr now)
    title := some (jsOrStr nd.title "Untitled")
    content := some (jsOrStr nd.content "")
    tags := some (nd.tags.getD [])
    folder := some (jsOrStr nd.folder "quick-notes")
    createdAt := some now
    updatedAt := some now
    wordCount := some (countWords (jsOrStr nd.content ""))
    summary := nd.summary
    actionItems := nd.actionItems }

/-- The object built by the update branch of `saveNote`: the spread of the
input with `updatedAt` and `wordCount` overwritten (`{...noteData, updatedAt: now, wordCount: ...}`). -/
def mkUpdatedNote (nd : JsNote) (now : Nat) : JsNote :=
  { nd with
    updatedAt := some now
    wordCount := some (countWords (jsOrStr nd.content "")) }

/-- `saveNote(noteData)`.  The branch test is JS-falsy (`!noteData.id`), so an
absent or empty id selects the create branch. -/
def saveNote (nd : JsNote) (now : Nat) (st : StorageState) : JsNote × StorageState :=
  if nd.id = none ∨ nd.id = some "" then
    let newNote := mkNewNote nd now
    (newNote, persistNotes { st with notes := newNote :: st.notes })
  else
    let updatedNote := mkUpdatedNote nd now
    (updatedNote,
      persistNotes
        { st with notes := st.notes.map fun n => if n.id = nd.id then updatedNote else n })

/-- `deleteNote(noteId)`. -/
def deleteNote (noteId : String) (st : StorageState) : StorageState :=
  persistNotes { st with notes := st.notes.filter fun n => n.id ≠ some noteId }

/-- `createFolder(name, color, icon)`. -/
def createFolder (name color icon : String) (now : Nat) (st : StorageState) :
    Folder × StorageState :=
  let newFolder : Folder :=
    { id := Nat.repr now, name := name, color := color, icon := icon, createdAt := now }
  (newFolder, persistFolders { st with folders := st.folders ++ [newFolder] })

/-- The note transformation applied by `deleteFolder`: a note in the deleted
folder is moved to `"quick-notes"`, any other note is untouched. -/
def reassignNote (folderId : String) (n : JsNote) : JsNote :=
  if n.folder = some folderId then { n with folder := some "quick-notes" } else n

/-- `deleteFolder(folderId)`: refuses when the id belongs to `DEFAULT_FOLDERS`,
otherwise reassigns member notes to `"quick-notes"` and filters the folder out. -/
def deleteFolder (folderId : String) (st : StorageState) : StorageState :=
  if DEFAULT_FOLDERS.any (fun f => f.id = folderId) then st
  else
    persistFolders
      (persistNotes
        { st with
          notes := st.notes.map (reassignNote folderId)
          folders := st.folders.filter fun f => f.id ≠ folderId })

/-- `getNotesInFolder(folderId)`. -/
def getNotesInFolder (folderId : String) (st : StorageState) : List JsNote :=
  if folderId = "all" then st.notes
  else st.notes.filter fun n => n.folder = some folderId

/-- The match predicate of `searchNotes` against one note (reading a missing
string property as `""`, which never matches a nonempty term and cannot make a
difference for well-formed notes). -/
def noteMatches (searchTerm : String) (n : JsNote) : Bool :=
  jsIncludes (jsToLower (n.title.getD "")) searchTerm ||
  jsIncludes (jsToLower (n.content.getD "")) searchTerm ||
  (n.tags.getD []).any (fun tag => jsIncludes (jsToLower tag) searchTerm) ||
  (match n.summary with
   | some s => jsIncludes (jsToLower s) searchTerm
   | none => false)

/-- `searchNotes(query)`. -/
def searchNotes (query : String) (st : StorageState) : List JsNote :=
  if jsTrim query = "" then st.notes
  else st.notes.filter (noteMatches (jsToLower query))

/-- `categorizeNote(content)`. -/
def categorizeNote (content : String) : String :=
  let text := jsToLower content
  if jsIncludes text "meeting" || jsIncludes text "agenda" || jsIncludes text "discussed" then
    "meetings"
  else if jsIncludes text "idea" || jsIncludes text "brainstorm" || jsIncludes text "concept" then
    "ideas"
  else if jsIncludes text "todo" || jsIncludes text "task" || jsIncludes text "action item" then
    "tasks"
  else
    "quick-notes"


/-! ### Helper lemmas about the persistence effects -/

@[simp] lemma persistNotes_notes (st : StorageState) : (persistNotes st).notes = st.notes := by
  unfold persistNotes; split <;> rfl

@[simp] lemma persistNotes_folders (st : StorageState) :
    (persistNotes st).folders = st.folders := by
  unfold persistNotes; split <;> rfl

@[simp] lemma persistFolders_notes (st : StorageState) :
    (persistFolders st).notes = st.notes := by
  unfold persistFolders; split <;> rfl

@[simp] lemma persistFolders_folders (st : StorageState) :
    (persistFolders st).folders = st.folders := by
  unfold persistFolders; split <;> rfl

/-! ### Sample data used by the concrete witnesses -/

/-- A loaded state with no notes and the seeded folders. -/
def emptyState : StorageState :=
  { notes := [], folders := DEFAULT_FOLDERS, storedNotes := none,
    storedFolders := none, isLoading := false }

/-- A create-path input: no id, a title and a three-word body, everything else
absent. -/
def sampleInput : JsNote :=
  { id := none, title := some "Groceries", content := some "milk and eggs",
    tags := none, folder := none, createdAt := none, updatedAt := none,
    wordCount := none, summary := none, actionItems := none }

/-! ### C1 : the create path of `saveNote` -/

/-- The conclusion of claim C1, for a call `saveNote nd now st`. -/
def SaveNoteCreateSpec (st : StorageState) (nd : JsNote) (now : Nat) : Prop :=
  ((saveNote nd now st).1).id = some (Nat.repr now) ∧
  (nd.title = none ∨ nd.title = some "" → ((saveNote nd now st).1).title = some "Untitled") ∧
  (nd.tags = none → ((saveNote nd now st).1).tags = some []) ∧
  (nd.folder = none → ((saveNote nd now st).1).folder = some "quick-notes") ∧
  ((saveNote nd now st).1).createdAt = some now ∧
  ((saveNote nd now st).1).updatedAt = some now ∧
  (∀ b, ((saveNote nd now st).1).content = some b →
    ((saveNote nd now st).1).wordCount = some (countWords b)) ∧
  ((saveNote nd now st).2).notes = (saveNote nd now st).1 :: st.notes ∧
  ((∀ m ∈ st.notes, m.id ≠ some (Nat.repr now)) →
    ∀ m ∈ st.notes, ((saveNote nd now st).1).id ≠ m.id) ∧
  (∀ fid, fid ≠ "all" → ((saveNote nd now st).1).folder = some fid →
    getNotesInFolder fid (saveNote nd now st).2 =
      (saveNote nd now st).1 :: getNotesInFolder fid st)

/-- **C1.** `saveNote` with no identifier returns a note with a fresh
time-based identifier, defaulted title/tags/folder, creation and update time
both equal to the current clock reading, and a word count equal to the number
of non-empty whitespace-delimited tokens of its body; the note is prepended to
the collection, so a later creation is listed before an earlier one by
`getNotesInFolder`. -/
theorem saveNote_create_spec (st : StorageState) (nd : JsNote) (now : Nat)
    (h : nd.id = none) : SaveNoteCreateSpec st nd now := by
  have hcond : nd.id = none ∨ nd.id = some "" := Or.inl h
  refine ⟨?_, ?_, ?_, ?_, ?_, ?_, ?_, ?_, ?_, ?_⟩ <;>
    simp only [SaveNoteCreateSpec, saveNote, if_pos hcond, mkNewNote,
      persistNotes_notes]
  · intro ht
    rcases ht with ht | ht <;> simp [jsOrStr, ht]
  · intro ht; simp [ht]
  · intro ht; simp [jsOrStr, ht]
  · intro b hb
    simp only [Option.some.injEq] at hb
    simp [hb]
  · intro hfresh m hm heq
    exact hfresh m hm heq.symm
  · intro fid hne hf
    simp only [Option.some.injEq] at hf
    simp [getNotesInFolder, hne, List.filter_cons, hf]

/-- Witness for C1: the create-path spec at a concrete state and input. -/
theorem saveNote_create_spec_witness :
    sampleInput.id = none ∧ SaveNoteCreateSpec emptyState sampleInput 5 :=
  ⟨rfl, saveNote_create_spec emptyState sampleInput 5 rfl⟩

/-! ### C2 : the update path of `saveNote` -/

/-- A fully populated stored note with id `"1"`. -/
def storedNote1 : JsNote :=
  { id := some "1", title := some "A", content := some "x", tags := some [],
    folder := some "quick-notes", createdAt := some 5, updatedAt := some 5,
    wordCount := some 1, summary := none, actionItems := none }

/-- A loaded state holding exactly `storedNote1`, with mirrors in sync. -/
def oneNoteState : StorageState :=
  { notes := [storedNote1], folders := DEFAULT_FOLDERS,
    storedNotes := some [storedNote1], storedFolders := some DEFAULT_FOLDERS,
    isLoading := false }

/-- An update input for note `"1"` that supplies only the body. -/
def updateInput : JsNote :=
  { id := some "1", title := none, content := some "hello there", tags := none,
    folder := none, createdAt := none, updatedAt := none, wordCount := none,
    summary := none, actionItems := none }

/-- Counterexample to C2 as stated: updating note `"1"` (stored title `"A"`,
stored `createdAt` 5) with an input that supplies only the body does NOT keep
the stored title or creation timestamp — the result and the replaced entry
have an absent title and absent `createdAt`. -/
theorem saveNote_update_no_merge :
    storedNote1.id = some "1" ∧ storedNote1.title = some "A" ∧
    storedNote1.createdAt = some 5 ∧
    updateInput.id = some "1" ∧ updateInput.title = none ∧
    ((saveNote updateInput 9 oneNoteState).1).title = none ∧
    ((saveNote updateInput 9 oneNoteState).1).createdAt = none ∧
    ((saveNote updateInput 9 oneNoteState).2).notes.map JsNote.title = [none] := by
  decide

/-- The conclusion of the amended C2, for a call `saveNote nd now st`. -/
def SaveNoteUpdateSpec (st : StorageState) (nd : JsNote) (now : Nat) : Prop :=
  (saveNote nd now st).1 = mkUpdatedNote nd now ∧
  ((saveNote nd now st).1).id = nd.id ∧
  ((saveNote nd now st).1).title = nd.title ∧
  ((saveNote nd now st).1).createdAt = nd.createdAt ∧
  ((saveNote nd now st).1).updatedAt = some now ∧
  ((saveNote nd now st).1).wordCount = some (countWords (jsOrStr nd.content "")) ∧
  ((saveNote nd now st).2).notes =
    st.notes.map (fun n => if n.id = nd.id then (saveNote nd now st).1 else n) ∧
  (∀ n ∈ st.notes, n.id ≠ nd.id → n ∈ ((saveNote nd now st).2).notes) ∧
  ((saveNote nd now st).2).notes.length = st.notes.length

/-- **C2 (amended).** `saveNote` with a nonempty identifier does not merge
over the stored note: the result is the supplied partial data itself with
`updatedAt` refreshed and `wordCount` recomputed from the supplied body
(unsupplied fields become absent, the stored values are lost); every entry
whose identifier equals the supplied one is replaced by that result, all other
entries are kept, and the result is returned. -/
theorem saveNote_update_spec (st : StorageState) (nd : JsNote) (now : Nat)
    (s : String) (hs : s ≠ "") (h : nd.id = some s) :
    SaveNoteUpdateSpec st nd now := by
  have hcond : ¬(nd.id = none ∨ nd.id = some "") := by
    rintro (hc | hc) <;> rw [h] at hc
    · exact Option.noConfusion hc
    · exact hs (Option.some.injEq .. ▸ hc)
  refine ⟨?_, ?_, ?_, ?_, ?_, ?_, ?_, ?_, ?_⟩ <;>
    simp only [SaveNoteUpdateSpec, saveNote, if_neg hcond, mkUpdatedNote,
      persistNotes_notes]
  · intro n hn hne
    refine List.mem_map.mpr ⟨n, hn, ?_⟩
    exact if_neg hne
  · simp

/-- Witness for the amended C2 at a concrete state and input. -/
theorem saveNote_update_spec_witness :
    ("1" : String) ≠ "" ∧ updateInput.id = some "1" ∧
    SaveNoteUpdateSpec oneNoteState updateInput 9 :=
  ⟨by decide, rfl, saveNote_update_spec oneNoteState updateInput 9 "1" (by decide) rfl⟩

/-! ### C3 : the timestamp invariant -/

/-- An update input for note `"1"` that supplies a `createdAt` of 100, far in
the future of the clock. -/
def badUpdateInput : JsNote :=
  { id := some "1", title := some "A", content := some "x", tags := some [],
    folder := some "quick-notes", createdAt := some 100, updatedAt := none,
    wordCount := none, summary := none, actionItems := none }

/-- Counterexample to C3 as stated: the update path copies `createdAt`
verbatim from the input of the caller, so after this storage-module operation the
sole note in the collection has `updatedAt = 9 < 100 = createdAt`. -/
theorem updatedAt_invariant_cex :
    ((saveNote badUpdateInput 9 oneNoteState).2).notes.map
        (fun n => (n.createdAt, n.updatedAt)) = [(some 100, some 9)] ∧
    (9 : Nat) < 100 := by
  decide

/-- The conclusion of the amended C3, for a call `saveNote nd now st`. -/
def UpdatedAtSpec (st : StorageState) (nd : JsNote) (now : Nat) : Prop :=
  ((saveNote nd now st).1).updatedAt = some now ∧
  (nd.id = none ∨ nd.id = some "" →
    ((saveNote nd now st).1).createdAt = some now ∧
    ((saveNote nd now st).1).updatedAt = ((saveNote nd now st).1).createdAt) ∧
  (∀ s, nd.id = some s → s ≠ "" → ∀ c, nd.createdAt = some c → c ≤ now →
    ((saveNote nd now st).1).createdAt = some c ∧
    c ≤ ((saveNote nd now st).1).updatedAt.getD 0) ∧
  (∀ nd2 now2 st2, now ≤ now2 →
    ((saveNote nd now st).1).updatedAt.getD 0 ≤
      ((saveNote nd2 now2 st2).1).updatedAt.getD 0)

/-- **C3 (amended).** Every `saveNote` result has `updatedAt` equal to the
current clock reading, so with a monotone clock re-saving a note never
decreases its `updatedAt`; a newly created note has `updatedAt = createdAt`;
an updated note satisfies `createdAt ≤ updatedAt` provided the update input
carries a `createdAt` not exceeding the current clock reading — the code lets
the caller supply an arbitrary `createdAt` on update, so the unconditional
invariant of the claim fails (see the counterexample). -/
theorem saveNote_updatedAt_spec (st : StorageState) (nd : JsNote) (now : Nat) :
    UpdatedAtSpec st nd now := by
  have hup : ((saveNote nd now st).1).updatedAt = some now := by
    unfold saveNote
    split <;> rfl
  refine ⟨hup, ?_, ?_, ?_⟩
  · intro hcond
    have h1 : ((saveNote nd now st).1).createdAt = some now := by
      simp only [saveNote, if_pos hcond, mkNewNote]
    exact ⟨h1, by rw [hup, h1]⟩
  · intro s hss hs c hc hcle
    have hcond : ¬(nd.id = none ∨ nd.id = some "") := by
      rintro (h | h) <;> rw [hss] at h
      · exact Option.noConfusion h
      · exact hs (Option.some.injEq .. ▸ h)
    have h1 : ((saveNote nd now st).1).createdAt = nd.createdAt := by
      simp only [saveNote, if_neg hcond, mkUpdatedNote]
    rw [h1, hc]
    exact ⟨rfl, by rw [hup]; exact hcle⟩
  · intro nd2 now2 st2 hmono
    have hup2 : ((saveNote nd2 now2 st2).1).updatedAt = some now2 := by
      unfold saveNote
      split <;> rfl
    rw [hup, hup2]
    exact hmono

/-- Witness for the amended C3 at a concrete state and input. -/
theorem saveNote_updatedAt_spec_witness : UpdatedAtSpec oneNoteState updateInput 9 :=
  saveNote_updatedAt_spec oneNoteState updateInput 9

/-! ### C4 : `saveNote` with an unknown identifier -/

/-- The conclusion of claim C4, for a call `saveNote nd now st` whose
identifier matches nothing. -/
def SaveNoteNoMatchSpec (st : StorageState) (nd : JsNote) (now : Nat) : Prop :=
  ((saveNote nd now st).2).notes = st.notes ∧
  ((saveNote nd now st).2).folders = st.folders ∧
  (saveNote nd now st).1 ∉ ((saveNote nd now st).2).notes

/-- **C4.** `saveNote` with a nonempty identifier that matches no existing
note raises no error (the operation is total) and leaves the note collection
unchanged: the constructed record is returned but never added. -/
theorem saveNote_no_match_spec (st : StorageState) (nd : JsNote) (now : Nat)
    (s : String) (hs : s ≠ "") (h : nd.id = some s)
    (hmiss : ∀ n ∈ st.notes, n.id ≠ some s) :
    SaveNoteNoMatchSpec st nd now := by
  have hcond : ¬(nd.id = none ∨ nd.id = some "") := by
    rintro (hc | hc) <;> rw [h] at hc
    · exact Option.noConfusion hc
    · exact hs (Option.some.injEq .. ▸ hc)
  have hmap : (st.notes.map fun n => if n.id = nd.id then mkUpdatedNote nd now else n)
      = st.notes := by
    rw [List.map_congr_left fun n hn => if_neg (h ▸ hmiss n hn)]
    exact List.map_id st.notes
  refine ⟨?_, ?_, ?_⟩ <;>
    simp only [SaveNoteNoMatchSpec, saveNote, if_neg hcond, persistNotes_notes,
      persistNotes_folders, hmap]
  intro hmem
  have hid : (mkUpdatedNote nd now).id = some s := by
    simp [mkUpdatedNote, h]
  exact hmiss _ hmem hid

/-- An input whose identifier `"2"` matches no note of `oneNoteState`. -/
def missInput : JsNote :=
  { id := some "2", title := some "B", content := some "zz", tags := none,
    folder := none, createdAt := none, updatedAt := none, wordCount := none,
    summary := none, actionItems := none }

/-- Witness for C4 at a concrete state and input. -/
theorem saveNote_no_match_spec_witness :
    ("2" : String) ≠ "" ∧ missInput.id = some "2" ∧
    (∀ n ∈ oneNoteState.notes, n.id ≠ some "2") ∧
    SaveNoteNoMatchSpec oneNoteState missInput 9 :=
  ⟨by decide, rfl, by decide,
    saveNote_no_match_spec oneNoteState missInput 9 "2" (by decide) rfl (by decide)⟩

/-! ### C5 : `deleteFolder` on a non-default folder, `deleteNote` on a missing id -/

lemma reassignNote_folder_eq (fid : String) (n : JsNote) (h : n.folder = some fid) :
    reassignNote fid n = { n with folder := some "quick-notes" } := if_pos h

lemma reassignNote_folder_ne (fid : String) (n : JsNote) (h : n.folder ≠ some fid) :
    reassignNote fid n = n := if_neg h

/-- Reassigning the members of folder `fid` adds exactly their number to the
population of `"quick-notes"`. -/
lemma length_filter_quick_map_reassign (fid : String) (h : fid ≠ "quick-notes")
    (l : List JsNote) :
    ((l.map (reassignNote fid)).filter (fun n => n.folder = some "quick-notes")).length =
      (l.filter (fun n => n.folder = some "quick-notes")).length +
        (l.filter (fun n => n.folder = some fid)).length := by
  induction l with
  | nil => rfl
  | cons n t ih =>
    by_cases hn : n.folder = some fid
    · have hq : ¬n.folder = some "quick-notes" := by
        rw [hn]; intro hc
        exact h (Option.some.injEq .. ▸ hc)
      have h2 : ("quick-notes" : String) ≠ fid := Ne.symm h
      simp only [List.map_cons, List.filter_cons, reassignNote_folder_eq fid n hn]
      simp [hn, hq, ih, h, h2]
      omega
    · have h2 : ("quick-notes" : String) ≠ fid := Ne.symm h
      simp only [List.map_cons, List.filter_cons, reassignNote_folder_ne fid n hn]
      by_cases hq : n.folder = some "quick-notes"
      · simp [hn, hq, ih, h2]
        omega
      · simp [hn, hq, ih]

/-- After reassignment no note remains in folder `fid`. -/
lemma filter_fid_map_reassign (fid : String) (h : fid ≠ "quick-notes")
    (l : List JsNote) :
    (l.map (reassignNote fid)).filter (fun n => n.folder = some fid) = [] := by
  induction l with
  | nil => rfl
  | cons n t ih =>
    by_cases hn : n.folder = some fid
    · have hq : ¬(some "quick-notes" : Option String) = some fid := by
        intro hc
        exact h (Option.some.injEq .. ▸ hc).symm
      simp only [List.map_cons, List.filter_cons, reassignNote_folder_eq fid n hn]
      simpa [hq] using ih
    · simp only [List.map_cons, List.filter_cons, reassignNote_folder_ne fid n hn]
      simpa [hn] using ih

/-- The conclusion of the `deleteFolder` half of claim C5. -/
def DeleteFolderSpec (fid : String) (st : StorageState) : Prop :=
  (deleteFolder fid st).notes = st.notes.map (reassignNote fid) ∧
  (∀ n ∈ st.notes, n.folder ≠ some fid → n ∈ (deleteFolder fid st).notes) ∧
  (∀ n ∈ st.notes, n.folder = some fid →
    { n with folder := some "quick-notes" } ∈ (deleteFolder fid st).notes) ∧
  (∀ n : JsNote,
    (reassignNote fid n).id = n.id ∧ (reassignNote fid n).title = n.title ∧
    (reassignNote fid n).content = n.content ∧ (reassignNote fid n).tags = n.tags ∧
    (reassignNote fid n).createdAt = n.createdAt ∧
    (reassignNote fid n).updatedAt = n.updatedAt ∧
    (reassignNote fid n).wordCount = n.wordCount ∧
    (reassignNote fid n).summary = n.summary ∧
    (reassignNote fid n).actionItems = n.actionItems) ∧
  (deleteFolder fid st).notes.length = st.notes.length ∧
  (∀ f ∈ (deleteFolder fid st).folders, f.id ≠ fid) ∧
  (∀ f ∈ st.folders, f.id ≠ fid → f ∈ (deleteFolder fid st).folders) ∧
  ((deleteFolder fid st).notes.filter (fun n => n.folder = some "quick-notes")).length =
    (st.notes.filter (fun n => n.folder = some "quick-notes")).length +
      (st.notes.filter (fun n => n.folder = some fid)).length ∧
  ((deleteFolder fid st).notes.filter (fun n => n.folder = some fid)) = []

/-- The conclusion of the `deleteNote` half of claim C5. -/
def DeleteNoteMissingSpec (i : String) (st : StorageState) : Prop :=
  (deleteNote i st).notes = st.notes ∧
  (deleteNote i st).notes.length = st.notes.length

/-- **C5.** Deleting a non-default folder reassigns exactly its member notes
to `"quick-notes"` (touching no other field and no other note) and removes
the folder from the folder collection; `deleteNote` with an identifier
matching no note raises no error and leaves the collection (hence its size)
unchanged. -/
theorem deleteFolder_deleteNote_spec (st : StorageState) (fid i : String)
    (hfid : DEFAULT_FOLDERS.any (fun f => f.id = fid) = false)
    (hi : ∀ n ∈ st.notes, n.id ≠ some i) :
    DeleteFolderSpec fid st ∧ DeleteNoteMissingSpec i st := by
  have hnotq : fid ≠ "quick-notes" := by
    simp [DEFAULT_FOLDERS] at hfid
    exact fun hc => hfid.2.1 hc.symm
  have hcond : ¬DEFAULT_FOLDERS.any (fun f => f.id = fid) = true := by
    rw [hfid]; exact Bool.false_ne_true
  have hnotes : (deleteFolder fid st).notes = st.notes.map (reassignNote fid) := by
    simp [deleteFolder, hcond]
  have hfolders : (deleteFolder fid st).folders
      = st.folders.filter (fun f => f.id ≠ fid) := by
    simp [deleteFolder, hcond]
  refine ⟨⟨hnotes, ?_, ?_, ?_, ?_, ?_, ?_, ?_, ?_⟩, ?_, ?_⟩
  · intro n hn hne
    rw [hnotes]
    refine List.mem_map.mpr ⟨n, hn, ?_⟩
    exact reassignNote_folder_ne fid n hne
  · intro n hn hmem
    rw [hnotes]
    refine List.mem_map.mpr ⟨n, hn, ?_⟩
    exact reassignNote_folder_eq fid n hmem
  · intro n
    unfold reassignNote
    split <;> simp
  · rw [hnotes]; simp
  · intro f hf
    rw [hfolders] at hf
    have := List.of_mem_filter hf
    simpa using this
  · intro f hf hne
    rw [hfolders]
    exact List.mem_filter.mpr ⟨hf, by simpa using hne⟩
  · rw [hnotes]
    exact length_filter_quick_map_reassign fid hnotq st.notes
  · rw [hnotes]
    exact filter_fid_map_reassign fid hnotq st.notes
  · simp only [deleteNote, persistNotes_notes]
    exact List.filter_eq_self.mpr fun n hn => by simpa using hi n hn
  · simp only [deleteNote, persistNotes_notes]
    rw [List.filter_eq_self.mpr fun n hn => by simpa using hi n hn]

/-- A user-created folder with id `"99"`. -/
def customFolder : Folder :=
  { id := "99", name := "Work", color := "blue", icon := "Folder", createdAt := 3 }

/-- A note living in folder `"99"`. -/
def workNote : JsNote :=
  { id := some "7", title := some "W", content := some "hi", tags := some [],
    folder := some "99", createdAt := some 3, updatedAt := some 3,
    wordCount := some 1, summary := none, actionItems := none }

/-- A loaded state with the custom folder `"99"` and a note inside it. -/
def folderState : StorageState :=
  { notes := [workNote, storedNote1], folders := DEFAULT_FOLDERS ++ [customFolder],
    storedNotes := some [workNote, storedNote1],
    storedFolders := some (DEFAULT_FOLDERS ++ [customFolder]), isLoading := false }

/-- Witness for C5 at a concrete state: delete folder `"99"` and a nonexistent
note `"404"`. -/
theorem deleteFolder_deleteNote_spec_witness :
    (DEFAULT_FOLDERS.any (fun f => f.id = "99") = false) ∧
    (∀ n ∈ folderState.notes, n.id ≠ some "404") ∧
    (DeleteFolderSpec "99" folderState ∧ DeleteNoteMissingSpec "404" folderState) :=
  ⟨by decide, by decide,
    deleteFolder_deleteNote_spec folderState "99" "404" (by decide) (by decide)⟩

/-! ### C6 : `deleteFolder` refuses every default-folder identifier -/

/-- **C6.** For every identifier in the default set (the reserved `"all"`
included) `deleteFolder` raises no error and leaves the whole state — in
particular both the folder collection and the note collection — unchanged. -/
theorem deleteFolder_default_noop (st : StorageState) (fid : String)
    (h : DEFAULT_FOLDERS.any (fun f => f.id = fid) = true) :
    deleteFolder fid st = st ∧
    (deleteFolder fid st).folders = st.folders ∧
    (deleteFolder fid st).notes = st.notes := by
  have heq : deleteFolder fid st = st := by
    simp [deleteFolder, h]
  exact ⟨heq, by rw [heq], by rw [heq]⟩

/-- Witness for C6: deleting the reserved `"all"` folder is a no-op. -/
theorem deleteFolder_default_noop_witness :
    (DEFAULT_FOLDERS.any (fun f => f.id = "all") = true) ∧
    (deleteFolder "all" folderState = folderState ∧
      (deleteFolder "all" folderState).folders = folderState.folders ∧
      (deleteFolder "all" folderState).notes = folderState.notes) :=
  ⟨by decide, deleteFolder_default_noop folderState "all" (by decide)⟩

/-! ### C7 : `searchNotes` -/

/-- The conclusion of claim C7, for a call `searchNotes q st`. -/
def SearchNotesSpec (q : String) (st : StorageState) : Prop :=
  (jsTrim q = "" → searchNotes q st = st.notes) ∧
  (jsTrim q ≠ "" → ∀ n, n ∈ searchNotes q st ↔
    n ∈ st.notes ∧
      (jsIncludes (jsToLower (n.title.getD "")) (jsToLower q) = true ∨
       jsIncludes (jsToLower (n.content.getD "")) (jsToLower q) = true ∨
       (∃ tag ∈ n.tags.getD [], jsIncludes (jsToLower tag) (jsToLower q) = true) ∨
       (∃ s, n.summary = some s ∧ jsIncludes (jsToLower s) (jsToLower q) = true)))

/-- **C7.** `searchNotes` with a whitespace-only (or empty) query returns the
full collection unchanged; otherwise it returns exactly the notes whose
lowercased title, body, some tag, or summary (when present) contains the
lowercased query as a substring. -/
theorem searchNotes_spec (q : String) (st : StorageState) : SearchNotesSpec q st := by
  constructor
  · intro h
    simp [searchNotes, h]
  · intro h n
    rw [searchNotes, if_neg h, List.mem_filter]
    refine and_congr_right fun _ => ?_
    rw [noteMatches]
    cases hs : n.summary <;>
      simp [Bool.or_eq_true, List.any_eq_true, hs, or_assoc]

/-- Witness for C7 at a concrete query and state. -/
theorem searchNotes_spec_witness : SearchNotesSpec "Hello" oneNoteState :=
  searchNotes_spec "Hello" oneNoteState

/-! ### C8 : `categorizeNote` -/

/-- The first (meeting) keyword rule of `categorizeNote`. -/
def meetingRule (c : String) : Bool :=
  jsIncludes (jsToLower c) "meeting" || jsIncludes (jsToLower c) "agenda" ||
    jsIncludes (jsToLower c) "discussed"

/-- The second (idea) keyword rule of `categorizeNote`. -/
def ideaRule (c : String) : Bool :=
  jsIncludes (jsToLower c) "idea" || jsIncludes (jsToLower c) "brainstorm" ||
    jsIncludes (jsToLower c) "concept"

/-- The third (task) keyword rule of `categorizeNote`. -/
def taskRule (c : String) : Bool :=
  jsIncludes (jsToLower c) "todo" || jsIncludes (jsToLower c) "task" ||
    jsIncludes (jsToLower c) "action item"

lemma categorizeNote_eq (c : String) :
    categorizeNote c =
      if meetingRule c then "meetings"
      else if ideaRule c then "ideas"
      else if taskRule c then "tasks"
      else "quick-notes" := rfl

/-- The rule-order spec of claim C8, for a body `c`. -/
def CategorizeSpec (c : String) : Prop :=
  (categorizeNote c = "meetings" ∨ categorizeNote c = "ideas" ∨
    categorizeNote c = "tasks" ∨ categorizeNote c = "quick-notes") ∧
  (meetingRule c = true → categorizeNote c = "meetings") ∧
  (meetingRule c = false → ideaRule c = true → categorizeNote c = "ideas") ∧
  (meetingRule c = false → ideaRule c = false → taskRule c = true →
    categorizeNote c = "tasks") ∧
  (meetingRule c = false → ideaRule c = false → taskRule c = false →
    categorizeNote c = "quick-notes")

/-- **C8.** `categorizeNote` always returns one of the four default folder
identifiers, applying its keyword rules in fixed order with the first match
winning (a body matching the meeting rule maps to `"meetings"` regardless of
the later rules, and so on); in particular the body
`"Let\x27s discuss the meeting agenda"` maps to `"meetings"`. -/
theorem categorizeNote_spec (c : String) :
    CategorizeSpec c ∧ categorizeNote "Let\x27s discuss the meeting agenda" = "meetings" := by
  refine ⟨⟨?_, ?_, ?_, ?_, ?_⟩, by decide⟩ <;> rw [categorizeNote_eq]
  · cases hm : meetingRule c <;> cases hi : ideaRule c <;> cases ht : taskRule c <;>
      simp [hm, hi, ht]
  · intro h1; simp [h1]
  · intro h1 h2; simp [h1, h2]
  · intro h1 h2 h3; simp [h1, h2, h3]
  · intro h1 h2 h3; simp [h1, h2, h3]

/-- Witness for C8 at a concrete body. -/
theorem categorizeNote_spec_witness :
    CategorizeSpec "new brainstorm" ∧
    categorizeNote "Let\x27s discuss the meeting agenda" = "meetings" :=
  categorizeNote_spec "new brainstorm"

/-! ### C9 : the persistence contract -/

@[simp] lemma persistNotes_isLoading (st : StorageState) :
    (persistNotes st).isLoading = st.isLoading := by
  unfold persistNotes; split <;> rfl

@[simp] lemma persistFolders_storedNotes (st : StorageState) :
    (persistFolders st).storedNotes = st.storedNotes := by
  unfold persistFolders; split <;> rfl

lemma persistNotes_sync (st : StorageState) (h1 : st.isLoading = false)
    (h2 : 0 < st.notes.length) :
    (persistNotes st).storedNotes = some ((persistNotes st).notes) := by
  simp [persistNotes, h1, h2]

lemma persistFolders_sync (st : StorageState) (h1 : st.isLoading = false) :
    (persistFolders st).storedFolders = some ((persistFolders st).folders) := by
  simp [persistFolders, h1]

/-- Counterexample to C9 as stated: the notes effect writes only when the
collection is nonempty, so deleting the last note leaves the durable mirror
holding the old, deleted note instead of the current (empty) collection. -/
theorem persist_miss_cex :
    oneNoteState.isLoading = false ∧
    (deleteNote "1" oneNoteState).notes = [] ∧
    (deleteNote "1" oneNoteState).storedNotes = some [storedNote1] ∧
    (deleteNote "1" oneNoteState).storedNotes ≠
      some ((deleteNote "1" oneNoteState).notes) := by
  decide

/-- The conclusion of the amended C9, for a loaded state `st`. -/
def PersistSpec (st : StorageState) : Prop :=
  (∀ nd now, 0 < ((saveNote nd now st).2).notes.length →
    ((saveNote nd now st).2).storedNotes = some (((saveNote nd now st).2).notes)) ∧
  (∀ i, 0 < (deleteNote i st).notes.length →
    (deleteNote i st).storedNotes = some ((deleteNote i st).notes)) ∧
  (∀ name color icon now,
    ((createFolder name color icon now st).2).storedFolders =
      some (((createFolder name color icon now st).2).folders)) ∧
  (∀ fid, DEFAULT_FOLDERS.any (fun f => f.id = fid) = false →
    (deleteFolder fid st).storedFolders = some ((deleteFolder fid st).folders) ∧
    (0 < (deleteFolder fid st).notes.length →
      (deleteFolder fid st).storedNotes = some ((deleteFolder fid st).notes)))

/-- **C9 (amended).** Once loading has finished, every folder-collection
change is serialized to its local-storage entry, and every note-collection
change is serialized whenever the resulting collection is nonempty; a change
that empties the note collection is NOT written (the effect is guarded by
`notes.length > 0`), so the durable note mirror can go stale — see the
counterexample. -/
theorem persist_spec (st : StorageState) (h : st.isLoading = false) :
    PersistSpec st := by
  refine ⟨?_, ?_, ?_, ?_⟩
  · intro nd now hlen
    by_cases hc : nd.id = none ∨ nd.id = some ""
    · simp only [saveNote, if_pos hc] at hlen ⊢
      exact persistNotes_sync _ h (by simp)
    · simp only [saveNote, if_neg hc] at hlen ⊢
      exact persistNotes_sync _ h (by simpa using hlen)
  · intro i hlen
    simp only [deleteNote] at hlen ⊢
    exact persistNotes_sync _ h (by simpa using hlen)
  · intro name color icon now
    simp only [createFolder]
    exact persistFolders_sync _ h
  · intro fid hfid
    have hcond : ¬DEFAULT_FOLDERS.any (fun f => f.id = fid) = true := by
      rw [hfid]; exact Bool.false_ne_true
    constructor
    · simp only [deleteFolder, if_neg hcond]
      exact persistFolders_sync _ (by simp [h])
    · intro hlen
      simp only [deleteFolder, if_neg hcond] at hlen ⊢
      simp only [persistFolders_storedNotes, persistFolders_notes]
      exact persistNotes_sync _ h (by simpa using hlen)

/-- Witness for the amended C9 at a concrete loaded state. -/
theorem persist_spec_witness :
    oneNoteState.isLoading = false ∧ PersistSpec oneNoteState :=
  ⟨rfl, persist_spec oneNoteState rfl⟩

/-! ### C10 : the read operations are order-preserving sublists -/

/-- **C10.** `getNotesInFolder` and `searchNotes` each return an
order-preserving sublist of the current note collection (no duplicates
introduced, no reordering), and `getNotesInFolder "all"` is the full
collection itself.  In the embedding both are pure functions of the state —
they return a list and no new `StorageState` — so they modify neither
collection nor the stored mirrors. -/
theorem read_ops_pure_sublist (fid q : String) (st : StorageState) :
    (getNotesInFolder fid st).Sublist st.notes ∧
    (searchNotes q st).Sublist st.notes ∧
    getNotesInFolder "all" st = st.notes := by
  refine ⟨?_, ?_, by simp [getNotesInFolder]⟩
  · unfold getNotesInFolder
    split
    · exact List.Sublist.refl _
    · exact List.filter_sublist _
  · unfold searchNotes
    split
    · exact List.Sublist.refl _
    · exact List.filter_sublist _
